import Mathlib

/-!
Verification of the RAG pipeline in `backend/legal_qa.py`.

The Python module retrieves legal passages from a FAISS index, builds an
Arabic prompt under a character budget, queries an Ollama backend, and
composes a structured answer with fallbacks. We embed the pure logic of
that module here:

* the embedder + FAISS index pair is abstracted as a function
  `sr : String → Nat → List Int` mapping a query and a requested `top_k`
  to the raw list of index positions (FAISS pads missing results with `-1`);
* the Ollama HTTP endpoint is abstracted as an oracle: a list of outcomes
  for the successive generation calls a run would make, each outcome being
  either a transport/HTTP failure or the JSON `response` field;
* Python strings are Lean `String`s (both `len` and slicing count code
  points), `str.strip` is modelled explicitly, and optional / missing
  dictionary fields are `Option String`.
-/

set_option linter.unusedVariables false

/-- A legal passage record from the metadata file.  `none` models an absent
(or JSON-null) field; `some ""` models a present-but-empty string. -/
structure Passage where
  law_title : Option String
  article_title : Option String
  text : Option String
  url : Option String
deriving Repr, DecidableEq, Inhabited

/-- The dictionary returned by `rag_answer`. -/
structure AnswerResult where
  answer : String
  sources : List Passage
  backend : String
  retrieved : Nat
deriving Repr, DecidableEq, Inhabited

/-- Python `str.strip()` on a character list: drop leading and trailing
whitespace. -/
def stripList (l : List Char) : List Char :=
  ((l.dropWhile Char.isWhitespace).reverse.dropWhile Char.isWhitespace).reverse

/-- Python `str.strip()`. -/
def pyStrip (s : String) : String :=
  ⟨stripList s.data⟩

/-- Python `str.strip(cs)`: drop the characters of `cs` from both ends. -/
def pyStripChars (cs : String) (s : String) : String :=
  ⟨((s.data.dropWhile (cs.data.contains ·)).reverse.dropWhile
      (cs.data.contains ·)).reverse⟩

/-- Python `x or d` for an optional string: `None` and `""` are falsy. -/
def orStr (x : Option String) (d : String) : String :=
  match x with
  | none => d
  | some s => if s = "" then d else s

/-- Default retrieval breadth: `TOP_K = int(os.getenv("TOP_K", "5"))`. -/
def TOP_K : Nat := 5

/-- Placeholder law title  `"قانون غير مُسمّى"`. -/
def UNNAMED_LAW : String := "قانون غير مُسمّى"

/-- Fixed no-information string `"لا توجد معلومات"`. -/
def NO_INFO : String := "لا توجد معلومات"

/-- `[metadata[i] for i in idxs if 0 <= i < len(metadata)]`. -/
def lookupPositions (metadata : List Passage) (idxs : List Int) : List Passage :=
  idxs.filterMap (fun i =>
    if 0 ≤ i ∧ i < (metadata.length : Int) then metadata.get? i.toNat else none)

/-- `search_laws(query, top_k)`: run the (abstracted) index search and map the
returned positions through the metadata store, silently dropping any position
outside `[0, len(metadata))`. -/
def search_laws (sr : String → Nat → List Int) (metadata : List Passage)
    (query : String) (top_k : Nat) : List Passage :=
  lookupPositions metadata (sr query top_k)

/-- The block `get_best_match_answer` renders for one passage, or `none` when
the passage is skipped because its stripped text is empty. -/
def bestMatchBlock (item : Passage) : Option String :=
  let law_title := item.law_title.getD UNNAMED_LAW
  let text := pyStrip (item.text.getD "")
  if text = "" then none
  else some (match item.article_title with
    | some a =>
        if a = "" then "(" ++ law_title ++ "):\n" ++ text
        else a ++ " (" ++ law_title ++ "):\n" ++ text
    | none => "(" ++ law_title ++ "):\n" ++ text)

/-- The pure tail of `get_best_match_answer` once the retrieval result `ctx`
is in hand. -/
def bestMatchRender (ctx : List Passage) : String :=
  if ctx = [] then NO_INFO
  else
    let parts := (ctx.take 3).filterMap bestMatchBlock
    if parts = [] then NO_INFO else String.intercalate "\n\n" parts

/-- `get_best_match_answer(question)` (retrieves with the default `TOP_K`). -/
def get_best_match_answer (sr : String → Nat → List Int) (metadata : List Passage)
    (question : String) : String :=
  bestMatchRender (search_laws sr metadata question TOP_K)

/-- The fixed Arabic system instruction `SYSTEM_AR`. -/
def SYSTEM_AR : String :=
  "أنت مساعد قانوني خبير في الأنظمة السعودية. " ++
  "أجب بدقة وبالعربية الفصحى، واستند فقط إلى المقاطع المزوّدة في (المراجع). " ++
  "استخدم أرقام الاستشهاد [1] [2] داخل المتن حيث تلزم. " ++
  "إذا كانت المراجع غير كافية، صرّح بذلك صراحةً."

/-- One numbered reference line of `_format_sources` (citation number `i`). -/
def formatSourceLine (i : Nat) (item : Passage) : String :=
  let law := orStr item.law_title UNNAMED_LAW
  let art := orStr item.article_title ""
  let txt := pyStrip (item.text.getD "")
  let url := orStr item.url ""
  let snippet := if txt.length ≤ 600 then txt else txt.take 600 ++ "…"
  let title := pyStripChars " —" (if art = "" then law else art ++ " — " ++ law)
  let line := "[" ++ toString i ++ "] " ++ title ++ "\n" ++ snippet
  if url = "" then line else line ++ "\nرابط: " ++ url

/-- `_format_sources(contexts)`: the reference block (lines joined by a blank
line, numbered from 1 in list order) together with the `cleaned` list, which
is the input list itself. -/
def _format_sources (contexts : List Passage) : String × List Passage :=
  (String.intercalate "\n\n"
      (contexts.enum.map (fun p => formatSourceLine (p.1 + 1) p.2)),
   contexts)

/-- `len(c.get("text") or "")`, the length charged against the budget. -/
def ctxTextLen (c : Passage) : Nat := (c.text.getD "").length

/-- The `for`-loop of `_build_prompt_ar`: walk the contexts accumulating text
length into `total`, breaking once the next passage would exceed the budget
and at least one passage has been kept. -/
def budgetLoop (max_ctx_chars : Nat) : List Passage → Nat → List Passage → List Passage
  | [], _, kept => kept
  | c :: rest, total, kept =>
    if max_ctx_chars < total + ctxTextLen c ∧ kept ≠ [] then kept
    else budgetLoop max_ctx_chars rest (total + ctxTextLen c) (kept ++ [c])

/-- The passages `_build_prompt_ar` keeps for the citation block. -/
def keptPassages (contexts : List Passage) (max_ctx_chars : Nat) : List Passage :=
  budgetLoop max_ctx_chars contexts 0 []

/-- `_build_prompt_ar(question, contexts, max_ctx_chars)`. -/
def _build_prompt_ar (question : String) (contexts : List Passage)
    (max_ctx_chars : Nat) : String :=
  let kept := keptPassages contexts max_ctx_chars
  let refs_text := (_format_sources kept).1
  "<النظام>\n" ++ SYSTEM_AR ++ "\n</النظام>\n\n" ++
  "<السؤال>\n" ++ question ++ "\n</السؤال>\n\n" ++
  "<المراجع>\n" ++ refs_text ++ "\n</المراجع>\n\n" ++
  "صُغ إجابة مختصرة ودقيقة ومدعّمة بالاستشهادات الرقمية ضمن النص (مثل [1]، [2]) " ++
  "واختم بفقرة: «المراجع المستند إليها: [1]، [2]، …». " ++
  "لا تضف معلومات من خارج المراجع."

/-- Outcome of one raw HTTP call to the Ollama endpoint: `.error` for a
connection failure, non-2xx status or malformed body, `.ok r` for a success
response whose JSON `response` field is `r` (`none` when absent/null). -/
abbrev RawGenOutcome := Except String (Option String)

/-- The generation backend as an oracle: the outcomes of the successive
calls a run would make, in order. -/
abbrev GenOracle := List RawGenOutcome

/-- `_generate_with_ollama`: strip the `response` field and raise on blank
text; transport errors are re-raised as `RuntimeError`s. -/
def _generate_with_ollama (raw : RawGenOutcome) : Except String String :=
  match raw with
  | .error e => .error ("Ollama generation failed: " ++ e)
  | .ok r =>
    let text := pyStrip (r.getD "")
    if text = "" then .error "Ollama generation failed: Empty response from Ollama."
    else .ok text

/-- Pop the next backend outcome; an exhausted oracle behaves as an
unreachable backend. -/
def callGen (oracle : GenOracle) : RawGenOutcome × GenOracle :=
  match oracle with
  | [] => (.error "Cannot reach Ollama", [])
  | r :: rest => (r, rest)

/-- The fixed empty-retrieval answer of `rag_answer`. -/
def EMPTY_INDEX_MSG : String :=
  "المعلومات المتاحة غير كافية للإجابة بثقة. (لا توجد نتائج مشابهة في الفهرس.)"

/-- The apology prefix of the generation-failure fallback (line 153). -/
def GEN_FAIL_PREFIX : String :=
  "تعذر توليد إجابة مُبرهنة حاليًا. فيما يلي مقتطفات ذات صلة:\n\n"

/-- The apology prefix of the degenerate-completion fallback (line 160). -/
def GEN_SHORT_PREFIX : String :=
  "تعذر توليد إجابة مُتكاملة من النموذج. فيما يلي مقتطفات مرتبطة بالسؤال:\n\n"

/-- `rag_answer(question, k_retrieve, max_ctx_chars, backend)`.  Returns the
result together with the part of the oracle not consumed, so the number of
generation calls made is observable.  The `backend` argument is accepted and
ignored, exactly as in the source. -/
def rag_answer (sr : String → Nat → List Int) (metadata : List Passage)
    (oracle : GenOracle) (question : String) (k_retrieve : Nat)
    (max_ctx_chars : Nat) (backend : Option String) : AnswerResult × GenOracle :=
  let ctxs := search_laws sr metadata question k_retrieve
  if ctxs = [] then
    ({ answer := EMPTY_INDEX_MSG, sources := [], backend := "llama",
       retrieved := 0 }, oracle)
  else
    let prompt := _build_prompt_ar question ctxs max_ctx_chars
    let res := callGen oracle
    match _generate_with_ollama res.1 with
    | .error _ =>
      ({ answer := GEN_FAIL_PREFIX ++ get_best_match_answer sr metadata question,
         sources := ctxs.take 3, backend := "llama",
         retrieved := ctxs.length }, res.2)
    | .ok t =>
      let completion := pyStrip t
      if completion = "" ∨ completion.length < 20 then
        ({ answer := GEN_SHORT_PREFIX ++ get_best_match_answer sr metadata question,
           sources := ctxs.take 3, backend := "llama",
           retrieved := ctxs.length }, res.2)
      else
        ({ answer := completion, sources := ctxs.take 3, backend := "llama",
           retrieved := ctxs.length }, res.2)

/-- Retrieval with a fallible embedder: `.error` models an exception raised by
`model.encode` (or the index search) during `search_laws`. -/
def search_laws_exc (sre : String → Nat → Except String (List Int))
    (metadata : List Passage) (query : String) (top_k : Nat) :
    Except String (List Passage) :=
  (sre query top_k).map (lookupPositions metadata)

/-- `get_best_match_answer` over a fallible embedder. -/
def get_best_match_answer_exc (sre : String → Nat → Except String (List Int))
    (metadata : List Passage) (question : String) : Except String String :=
  (search_laws_exc sre metadata question TOP_K).map bestMatchRender

/-- `rag_answer` with the exception flow made explicit.  Only the single call
`_generate_with_ollama(prompt).strip()` sits inside a `try`; the initial
`search_laws` call and the `get_best_match_answer` calls in the fallback
branches are unguarded, so an exception there propagates to the caller
(`.error`). -/
def rag_answer_exc (sre : String → Nat → Except String (List Int))
    (metadata : List Passage) (oracle : GenOracle) (question : String)
    (k_retrieve : Nat) (max_ctx_chars : Nat) (backend : Option String) :
    Except String AnswerResult × GenOracle :=
  match search_laws_exc sre metadata question k_retrieve with
  | .error e => (.error e, oracle)
  | .ok ctxs =>
    if ctxs = [] then
      (.ok { answer := EMPTY_INDEX_MSG, sources := [], backend := "llama",
             retrieved := 0 }, oracle)
    else
      let prompt := _build_prompt_ar question ctxs max_ctx_chars
      let res := callGen oracle
      match _generate_with_ollama res.1 with
      | .error _ =>
        match get_best_match_answer_exc sre metadata question with
        | .error e2 => (.error e2, res.2)
        | .ok fb =>
          (.ok { answer := GEN_FAIL_PREFIX ++ fb, sources := ctxs.take 3,
                 backend := "llama", retrieved := ctxs.length }, res.2)
      | .ok t =>
        let completion := pyStrip t
        if completion = "" ∨ completion.length < 20 then
          match get_best_match_answer_exc sre metadata question with
          | .error e2 => (.error e2, res.2)
          | .ok fb =>
            (.ok { answer := GEN_SHORT_PREFIX ++ fb, sources := ctxs.take 3,
                   backend := "llama", retrieved := ctxs.length }, res.2)
        else
          (.ok { answer := completion, sources := ctxs.take 3,
                 backend := "llama", retrieved := ctxs.length }, res.2)

/-! ## General lemmas about the embedded definitions -/

/-- Total text length of a list of passages, as accumulated by the budget loop. -/
def totalTextLen (l : List Passage) : Nat := (l.map ctxTextLen).sum

theorem budgetLoop_stop (max_ctx_chars : Nat) (rest : List Passage) (total : Nat)
    (kept : List Passage) (hk : kept ≠ []) (ht : max_ctx_chars < total) :
    budgetLoop max_ctx_chars rest total kept = kept := by
  cases rest with
  | nil => rfl
  | cons c r =>
    unfold budgetLoop
    rw [if_pos ⟨lt_of_lt_of_le ht (Nat.le_add_right _ _), hk⟩]

theorem budgetLoop_prefix (max_ctx_chars : Nat) : ∀ (rest : List Passage) (total : Nat)
    (kept : List Passage), ∃ pre, budgetLoop max_ctx_chars rest total kept = kept ++ pre ∧
      pre <+: rest
  | [], _, kept => ⟨[], by simp [budgetLoop], List.nil_prefix⟩
  | c :: rest, total, kept => by
    unfold budgetLoop
    by_cases h : max_ctx_chars < total + ctxTextLen c ∧ kept ≠ []
    · rw [if_pos h]
      exact ⟨[], by simp, List.nil_prefix⟩
    · rw [if_neg h]
      obtain ⟨pre, hpre, hp⟩ :=
        budgetLoop_prefix max_ctx_chars rest (total + ctxTextLen c) (kept ++ [c])
      exact ⟨c :: pre, by simp [hpre], List.cons_prefix_cons.mpr ⟨rfl, hp⟩⟩

theorem totalTextLen_append_one (l : List Passage) (c : Passage) :
    totalTextLen (l ++ [c]) = totalTextLen l + ctxTextLen c := by
  simp [totalTextLen]

theorem keptPassages_isPrefix (contexts : List Passage) (max_ctx_chars : Nat) :
    keptPassages contexts max_ctx_chars <+: contexts := by
  obtain ⟨pre, hpre, hp⟩ := budgetLoop_prefix max_ctx_chars contexts 0 []
  rw [keptPassages, hpre]
  simpa using hp

theorem budgetLoop_bounded (max_ctx_chars : Nat) : ∀ (rest : List Passage) (total : Nat)
    (kept : List Passage), kept ≠ [] → total ≤ max_ctx_chars → totalTextLen kept = total →
    totalTextLen (budgetLoop max_ctx_chars rest total kept) ≤ max_ctx_chars
  | [], total, kept, _, hle, htot => by
    unfold budgetLoop
    rw [htot]; exact hle
  | c :: rest, total, kept, hk, hle, htot => by
    unfold budgetLoop
    by_cases h : max_ctx_chars < total + ctxTextLen c ∧ kept ≠ []
    · rw [if_pos h, htot]; exact hle
    · rw [if_neg h]
      have hbud : total + ctxTextLen c ≤ max_ctx_chars := by
        rcases Nat.lt_or_ge max_ctx_chars (total + ctxTextLen c) with hlt | hge
        · exact absurd ⟨hlt, hk⟩ h
        · exact hge
      exact budgetLoop_bounded max_ctx_chars rest _ (kept ++ [c]) (by simp) hbud
        (by rw [totalTextLen_append_one, htot])

theorem lookupPositions_eq_filter_map (metadata : List Passage) (idxs : List Int) :
    lookupPositions metadata idxs =
      (idxs.filter (fun i => decide (0 ≤ i ∧ i < (metadata.length : Int)))).map
        (fun i => metadata.getD i.toNat default) := by
  unfold lookupPositions
  induction idxs with
  | nil => rfl
  | cons i rest ih =>
    by_cases h : 0 ≤ i ∧ i < (metadata.length : Int)
    · have hlt : i.toNat < metadata.length := by
        rw [Int.toNat_lt h.1]; exact h.2
      have hf : (if 0 ≤ i ∧ i < (metadata.length : Int)
            then metadata.get? i.toNat else none)
          = some (metadata.getD i.toNat default) := by
        rw [if_pos h, List.get?_eq_getElem?, List.getElem?_eq_getElem hlt,
          List.getD_eq_getElem _ _ hlt]
      rw [List.filterMap_cons, hf, List.filter_cons_of_pos (by simpa using h),
        List.map_cons]
      exact congrArg _ ih
    · have hf : (if 0 ≤ i ∧ i < (metadata.length : Int)
            then metadata.get? i.toNat else none) = none := if_neg h
      rw [List.filterMap_cons, hf, List.filter_cons_of_neg (by simpa using h)]
      exact ih

theorem dropWhile_head_false {α : Type} (p : α → Bool) :
    ∀ (l : List α) (a : α) (t : List α), l.dropWhile p = a :: t → p a = false
  | [], a, t, h => by simp [List.dropWhile] at h
  | b :: l', a, t, h => by
    rw [List.dropWhile_cons] at h
    cases hpb : p b with
    | true =>
      rw [hpb] at h
      simp only [if_pos] at h
      exact dropWhile_head_false p l' a t h
    | false =>
      rw [hpb] at h
      simp only [Bool.false_eq_true, if_false, List.cons.injEq] at h
      rw [← h.1]
      exact hpb

theorem dropWhile_idem {α : Type} (p : α → Bool) (l : List α) :
    (l.dropWhile p).dropWhile p = l.dropWhile p := by
  cases h : l.dropWhile p with
  | nil => rfl
  | cons a t =>
    rw [List.dropWhile_cons, dropWhile_head_false p l a t h]
    simp

/-- Stripping is idempotent, because a stripped list neither starts nor ends
with whitespace. -/
theorem stripList_idem (l : List Char) : stripList (stripList l) = stripList l := by
  unfold stripList
  set A := l.dropWhile Char.isWhitespace with hA
  set B := A.reverse.dropWhile Char.isWhitespace with hB
  have h1 : B.reverse.dropWhile Char.isWhitespace = B.reverse := by
    cases hBr : B.reverse with
    | nil => rfl
    | cons a t =>
      have hpref : B.reverse <+: A := by
        have hsuf : B <:+ A.reverse := by
          rw [hB]
          exact List.dropWhile_suffix _
        have hrev := List.reverse_prefix.mpr hsuf
        rwa [List.reverse_reverse] at hrev
      obtain ⟨u, hu⟩ := hpref
      have hA' : A = a :: (t ++ u) := by
        rw [← hu, hBr]
        rfl
      have hpa : Char.isWhitespace a = false :=
        dropWhile_head_false _ l a (t ++ u) (hA.symm.trans hA')
      rw [List.dropWhile_cons, hpa]
      simp
  rw [h1, List.reverse_reverse, hB, dropWhile_idem]

/-- Python `strip` is idempotent. -/
theorem pyStrip_idem (s : String) : pyStrip (pyStrip s) = pyStrip s := by
  unfold pyStrip
  exact congrArg String.mk (stripList_idem s.data)

/-- Whatever `_generate_with_ollama` returns successfully is non-blank and
carries no surrounding whitespace (the adapter strips it before returning). -/
theorem generate_ok_inv (r0 : RawGenOutcome) (t : String)
    (h : _generate_with_ollama r0 = Except.ok t) : t ≠ "" ∧ pyStrip t = t := by
  cases r0 with
  | error e => simp [_generate_with_ollama] at h
  | ok r =>
    have h' : (if pyStrip (r.getD "") = "" then
          (Except.error "Ollama generation failed: Empty response from Ollama." :
            Except String String)
        else Except.ok (pyStrip (r.getD ""))) = Except.ok t := h
    by_cases hb : pyStrip (r.getD "") = ""
    · rw [if_pos hb] at h'
      simp at h'
    · rw [if_neg hb] at h'
      simp only [Except.ok.injEq] at h'
      constructor
      · rw [← h']
        exact hb
      · rw [← h']
        exact pyStrip_idem _

/-! ## Test fixtures (shared concrete inputs for witnesses and counterexamples) -/

/-- Ten short passages standing in for the metadata store. -/
def mdFix : List Passage :=
  [⟨some "L1", some "A1", some "t1", none⟩,
   ⟨some "L2", none, some "t2", none⟩,
   ⟨some "L3", some "A3", some "t3", none⟩,
   ⟨some "L4", none, some "t4", none⟩,
   ⟨some "L5", none, some "t5", none⟩,
   ⟨some "L6", none, some "t6", none⟩,
   ⟨some "L7", none, some "t7", none⟩,
   ⟨some "L8", none, some "t8", none⟩,
   ⟨some "L9", none, some "t9", none⟩,
   ⟨some "L10", none, some "t10", none⟩]

/-- An index that ranks the store in order: position `j` has rank `j`. -/
def srFix : String → Nat → List Int := fun _ k => (List.range k).map Int.ofNat

/-- An index returning one out-of-range position, one valid position and one
`-1` sentinel. -/
def srDrop : String → Nat → List Int := fun _ _ => [15, 2, -1]

/-- A per-query embedder failure. -/
def sreFail : String → Nat → Except String (List Int) :=
  fun _ _ => .error "EmbeddingError"

/-- A healthy fallible index over `mdFix`. -/
def sreOk : String → Nat → Except String (List Int) :=
  fun _ k => .ok ((List.range (min k 10)).map Int.ofNat)

/-- Two passages whose text is whitespace-only or absent. -/
def mdWs : List Passage :=
  [⟨some "L1", none, some "   ", none⟩,
   ⟨some "L2", some "A2", none, none⟩]

/-- Index over `mdWs`. -/
def srWs : String → Nat → List Int := fun _ _ => [0, 1]

/-! ## Claim theorems -/

/-- C4: when retrieval returns no passages, `rag_answer` answers with the fixed
insufficient-information message, an empty source list and `retrieved = 0`, and
the generation oracle is left untouched (the backend is never called). -/
theorem rag_answer_empty_retrieval
    (sr : String → Nat → List Int) (metadata : List Passage) (oracle : GenOracle)
    (question : String) (k mc : Nat) (b : Option String)
    (h : search_laws sr metadata question k = []) :
    rag_answer sr metadata oracle question k mc b =
      ({ answer := EMPTY_INDEX_MSG, sources := [], backend := "llama",
         retrieved := 0 }, oracle) := by
  unfold rag_answer
  simp [h]

/-- Witness for C4 at a concrete input: an index that matches nothing. -/
theorem rag_answer_empty_retrieval_witness :
    rag_answer (fun _ _ => ([] : List Int)) mdFix [Except.error "conn"] "q" 6 8000 none =
      ({ answer := EMPTY_INDEX_MSG, sources := [], backend := "llama",
         retrieved := 0 }, [Except.error "conn"]) :=
  rag_answer_empty_retrieval (fun _ _ => []) mdFix [Except.error "conn"] "q" 6 8000 none rfl

/-- C8: `search_laws` returns at most `top_k` passages (given the index contract
that at most `top_k` raw positions come back), and its result is exactly the
in-range positions, in the order produced by the index, mapped through the
metadata store — out-of-range and `-1` sentinel positions are silently dropped
rather than raising, and no re-sorting happens; when nothing is in range the
result is the empty list. -/
theorem search_laws_bounded_ordered
    (sr : String → Nat → List Int) (metadata : List Passage) (q : String)
    (top_k : Nat) (hk : 1 ≤ top_k) (hfaiss : (sr q top_k).length ≤ top_k) :
    (search_laws sr metadata q top_k).length ≤ top_k ∧
    search_laws sr metadata q top_k =
      ((sr q top_k).filter (fun i => decide (0 ≤ i ∧ i < (metadata.length : Int)))).map
        (fun i => metadata.getD i.toNat default) :=
  ⟨le_trans (List.length_filterMap_le _ _) hfaiss,
   lookupPositions_eq_filter_map metadata (sr q top_k)⟩

/-- Witness for C8: metadata has 10 entries, the index returns positions
`[15, 2, -1]`; positions 15 and -1 are dropped and only passage 2 survives. -/
theorem search_laws_bounded_ordered_witness :
    (search_laws srDrop mdFix "q" 3).length ≤ 3 ∧
    search_laws srDrop mdFix "q" 3 =
      ((srDrop "q" 3).filter (fun i => decide (0 ≤ i ∧ i < (mdFix.length : Int)))).map
        (fun i => mdFix.getD i.toNat default) :=
  search_laws_bounded_ordered srDrop mdFix "q" 3 (by decide) (by decide)

/-- C9: the `backend` selection argument of `rag_answer` is dead — two calls
differing only in it return identical results — and on every outcome path the
`backend` field of the result is the fixed tag `"llama"`. -/
theorem rag_answer_backend_dead_and_tag
    (sr : String → Nat → List Int) (metadata : List Passage) (oracle : GenOracle)
    (question : String) (k mc : Nat) (b1 b2 : Option String) :
    rag_answer sr metadata oracle question k mc b1 =
      rag_answer sr metadata oracle question k mc b2 ∧
    (rag_answer sr metadata oracle question k mc b1).1.backend = "llama" := by
  refine ⟨rfl, ?_⟩
  unfold rag_answer
  by_cases h : search_laws sr metadata question k = []
  · simp [h]
  · simp only [if_neg h]
    cases hg : _generate_with_ollama (callGen oracle).1 with
    | error e => simp [hg]
    | ok t =>
      simp only [hg]
      by_cases hc : pyStrip t = "" ∨ (pyStrip t).length < 20
      · simp [hc]
      · simp [hc]

theorem ragAnswer_genError_eq
    (sr : String → Nat → List Int) (metadata : List Passage) (e : String)
    (rest : GenOracle) (q : String) (k mc : Nat) (b : Option String)
    (hne : search_laws sr metadata q k ≠ []) :
    rag_answer sr metadata (Except.error e :: rest) q k mc b =
      ({ answer := GEN_FAIL_PREFIX ++ get_best_match_answer sr metadata q,
         sources := (search_laws sr metadata q k).take 3, backend := "llama",
         retrieved := (search_laws sr metadata q k).length }, rest) := by
  unfold rag_answer
  simp only [if_neg hne]
  rfl

theorem ragAnswer_genOk_eq
    (sr : String → Nat → List Int) (metadata : List Passage) (s : String)
    (rest : GenOracle) (q : String) (k mc : Nat) (b : Option String)
    (hne : search_laws sr metadata q k ≠ [])
    (hs : pyStrip s = s) (hlen : 20 ≤ s.length) :
    rag_answer sr metadata (Except.ok (some s) :: rest) q k mc b =
      ({ answer := s, sources := (search_laws sr metadata q k).take 3,
         backend := "llama", retrieved := (search_laws sr metadata q k).length },
        rest) := by
  have hs0 : s ≠ "" := by
    intro h0
    rw [h0] at hlen
    simp at hlen
  unfold rag_answer
  simp only [if_neg hne]
  have hgen : _generate_with_ollama (callGen (Except.ok (some s) :: rest)).1 =
      Except.ok s := by
    show _generate_with_ollama (Except.ok (some s)) = Except.ok s
    unfold _generate_with_ollama
    simp only [Option.getD_some, hs, if_neg hs0]
  rw [hgen]
  have hcond : ¬ (s = "" ∨ s.length < 20) := by
    rintro (h0 | hlt)
    · exact hs0 h0
    · exact absurd hlen (not_le.mpr hlt)
  simp only [hs]
  rw [if_neg hcond]
  rfl

/-- C1 (amended): with non-empty retrieval, any backend outcome on which the
adapter raises — a connection/HTTP/malformed-body error, or a success response
whose text is blank (`EmptyCompletion`) — yields the failure fallback, and any
successfully returned completion shorter than 20 characters yields the
degenerate fallback: in both cases the answer is an apology prefix
concatenated with `get_best_match_answer`, the sources are the first 3
retrieved passages, `retrieved` is the retrieval count, and exactly one
backend call is consumed (no retry).  However each case uses its own fixed
apology prefix, and the two prefixes differ. -/
theorem rag_answer_degraded_fallback
    (sr : String → Nat → List Int) (metadata : List Passage) (rest : GenOracle)
    (q : String) (k mc : Nat) (b : Option String) (r0 : RawGenOutcome) (t : String)
    (hne : search_laws sr metadata q k ≠ []) :
    ((∃ e, _generate_with_ollama r0 = Except.error e) →
      rag_answer sr metadata (r0 :: rest) q k mc b =
        ({ answer := GEN_FAIL_PREFIX ++ get_best_match_answer sr metadata q,
           sources := (search_laws sr metadata q k).take 3, backend := "llama",
           retrieved := (search_laws sr metadata q k).length }, rest)) ∧
    (_generate_with_ollama r0 = Except.ok t → t.length < 20 →
      rag_answer sr metadata (r0 :: rest) q k mc b =
        ({ answer := GEN_SHORT_PREFIX ++ get_best_match_answer sr metadata q,
           sources := (search_laws sr metadata q k).take 3, backend := "llama",
           retrieved := (search_laws sr metadata q k).length }, rest)) ∧
    GEN_FAIL_PREFIX ≠ GEN_SHORT_PREFIX := by
  refine ⟨?_, ?_, by decide⟩
  · rintro ⟨e, he⟩
    unfold rag_answer
    simp only [if_neg hne]
    have he' : _generate_with_ollama (callGen (r0 :: rest)).1 = Except.error e := he
    rw [he']
    rfl
  · intro hok ht
    obtain ⟨ht0, hts⟩ := generate_ok_inv r0 t hok
    unfold rag_answer
    simp only [if_neg hne]
    have hok' : _generate_with_ollama (callGen (r0 :: rest)).1 = Except.ok t := hok
    rw [hok']
    simp only [hts]
    rw [if_pos (Or.inr ht)]
    rfl

/-- Witness for C1 at concrete inputs: a blank-text success response (the
`EmptyCompletion` failure the spec names) takes the failure-apology path, and
a 2-character completion takes the degenerate-apology path, each consuming
exactly one oracle entry. -/
theorem rag_answer_degraded_fallback_witness :
    (rag_answer srFix mdFix [Except.ok (some "")] "q" 6 8000 none =
      ({ answer := GEN_FAIL_PREFIX ++ get_best_match_answer srFix mdFix "q",
         sources := (search_laws srFix mdFix "q" 6).take 3, backend := "llama",
         retrieved := (search_laws srFix mdFix "q" 6).length }, [])) ∧
    (rag_answer srFix mdFix [Except.ok (some "ok")] "q" 6 8000 none =
      ({ answer := GEN_SHORT_PREFIX ++ get_best_match_answer srFix mdFix "q",
         sources := (search_laws srFix mdFix "q" 6).take 3, backend := "llama",
         retrieved := (search_laws srFix mdFix "q" 6).length }, [])) := by
  refine ⟨?_, ?_⟩
  · exact (rag_answer_degraded_fallback srFix mdFix [] "q" 6 8000 none
      (Except.ok (some "")) "" (by decide)).1 ⟨_, rfl⟩
  · exact (rag_answer_degraded_fallback srFix mdFix [] "q" 6 8000 none
      (Except.ok (some "ok")) "ok" (by decide)).2.1 rfl (by decide)

/-- C1 counterexample: the claim asserts one *same* fixed apology prefix for
both degraded cases; at this concrete input no single prefix works for both,
because the code uses two different apology strings. -/
theorem rag_answer_apology_prefixes_differ :
    ¬ ∃ pfx : String,
      (rag_answer srFix mdFix [Except.error "conn"] "q" 6 8000 none).1.answer =
        pfx ++ get_best_match_answer srFix mdFix "q" ∧
      (rag_answer srFix mdFix [Except.ok (some "ok")] "q" 6 8000 none).1.answer =
        pfx ++ get_best_match_answer srFix mdFix "q" := by
  rintro ⟨p, h1, h2⟩
  have h12 : (rag_answer srFix mdFix [Except.error "conn"] "q" 6 8000 none).1.answer =
      (rag_answer srFix mdFix [Except.ok (some "ok")] "q" 6 8000 none).1.answer := by
    rw [h1, h2]
  have hne : (rag_answer srFix mdFix [Except.error "conn"] "q" 6 8000 none).1.answer ≠
      (rag_answer srFix mdFix [Except.ok (some "ok")] "q" 6 8000 none).1.answer := by
    decide
  exact hne h12

/-- C2: the passages kept by the prompt builder are a prefix of the retrieved
order; their accumulated text length exceeds `max_ctx_chars` only when that
prefix is the single first passage; and at least one passage is kept whenever
the input list is non-empty. -/
theorem keptPassages_budget_law (contexts : List Passage) (max_ctx_chars : Nat) :
    keptPassages contexts max_ctx_chars <+: contexts ∧
    (max_ctx_chars < totalTextLen (keptPassages contexts max_ctx_chars) →
      keptPassages contexts max_ctx_chars = contexts.take 1) ∧
    (contexts ≠ [] → keptPassages contexts max_ctx_chars ≠ []) := by
  refine ⟨keptPassages_isPrefix contexts max_ctx_chars, ?_, ?_⟩
  · cases contexts with
    | nil =>
      intro hgt
      simp [keptPassages, budgetLoop, totalTextLen] at hgt
    | cons c r =>
      intro hgt
      have h0 : keptPassages (c :: r) max_ctx_chars =
          budgetLoop max_ctx_chars r (0 + ctxTextLen c) ([] ++ [c]) := by
        rw [keptPassages]
        simp only [budgetLoop]
        rw [if_neg (by simp)]
      by_cases hc : ctxTextLen c ≤ max_ctx_chars
      · exfalso
        have hb := budgetLoop_bounded max_ctx_chars r (0 + ctxTextLen c) ([] ++ [c])
          (by simp) (by simpa using hc) (by simp [totalTextLen])
        rw [h0] at hgt
        exact absurd hgt (not_lt.mpr hb)
      · rw [h0, budgetLoop_stop _ _ _ _ (by simp) (by simpa using not_le.mp hc)]
        simp
  · cases contexts with
    | nil => exact fun h => absurd rfl h
    | cons c r =>
      intro _
      have h0 : keptPassages (c :: r) max_ctx_chars =
          budgetLoop max_ctx_chars r (0 + ctxTextLen c) ([] ++ [c]) := by
        rw [keptPassages]
        simp only [budgetLoop]
        rw [if_neg (by simp)]
      obtain ⟨pre, hpre, hp⟩ :=
        budgetLoop_prefix max_ctx_chars r (0 + ctxTextLen c) ([] ++ [c])
      rw [h0, hpre]
      simp

/-- Witness for C2 at a concrete input: with a zero budget the loop still keeps
the first passage (and only it), exceeding the budget. -/
theorem keptPassages_budget_law_witness :
    keptPassages mdFix 0 <+: mdFix ∧ keptPassages mdFix 0 = mdFix.take 1 ∧
      keptPassages mdFix 0 ≠ [] := by
  have h := keptPassages_budget_law mdFix 0
  exact ⟨h.1, h.2.1 (by decide), h.2.2 (by decide)⟩

/-- C6: when the generation backend succeeds with a (stripped) completion of
length at least 20, `rag_answer` returns that completion verbatim as the
answer, exactly one backend call is made, and the sources are the first 3
retrieved passages, so that `sources.length = min 3 retrieved`. -/
theorem rag_answer_success_verbatim
    (sr : String → Nat → List Int) (metadata : List Passage) (rest : GenOracle)
    (q : String) (k mc : Nat) (b : Option String) (s : String)
    (hne : search_laws sr metadata q k ≠ [])
    (hs : pyStrip s = s) (hlen : 20 ≤ s.length) :
    rag_answer sr metadata (Except.ok (some s) :: rest) q k mc b =
      ({ answer := s, sources := (search_laws sr metadata q k).take 3,
         backend := "llama", retrieved := (search_laws sr metadata q k).length },
        rest) ∧
    ((rag_answer sr metadata (Except.ok (some s) :: rest) q k mc b).1.sources).length =
      min 3 (search_laws sr metadata q k).length := by
  have h := ragAnswer_genOk_eq sr metadata s rest q k mc b hne hs hlen
  refine ⟨h, ?_⟩
  rw [h]
  exact List.length_take 3 (search_laws sr metadata q k)

/-- Witness for C6 at a concrete input: a 25-character completion is returned
verbatim and three sources accompany it. -/
theorem rag_answer_success_verbatim_witness :
    rag_answer srFix mdFix [Except.ok (some "aaaaaaaaaaaaaaaaaaaaaaaaa")] "q" 6 8000 none =
      ({ answer := "aaaaaaaaaaaaaaaaaaaaaaaaa",
         sources := (search_laws srFix mdFix "q" 6).take 3, backend := "llama",
         retrieved := (search_laws srFix mdFix "q" 6).length }, []) ∧
    ((rag_answer srFix mdFix [Except.ok (some "aaaaaaaaaaaaaaaaaaaaaaaaa")]
        "q" 6 8000 none).1.sources).length = min 3 (search_laws srFix mdFix "q" 6).length :=
  rag_answer_success_verbatim srFix mdFix [] "q" 6 8000 none
    "aaaaaaaaaaaaaaaaaaaaaaaaa" (by decide) (by decide) (by decide)

theorem bestMatchBlock_none_of_ws (p : Passage)
    (h : pyStrip (p.text.getD "") = "") : bestMatchBlock p = none := by
  unfold bestMatchBlock
  simp [h]

theorem bestMatchRender_noinfo (ctx : List Passage)
    (h : ∀ p ∈ ctx.take 3, pyStrip (p.text.getD "") = "") :
    bestMatchRender ctx = NO_INFO := by
  unfold bestMatchRender
  by_cases hc : ctx = []
  · rw [if_pos hc]
  · rw [if_neg hc]
    have hnil : (ctx.take 3).filterMap bestMatchBlock = [] :=
      List.filterMap_eq_nil_iff.mpr (fun p hp => bestMatchBlock_none_of_ws p (h p hp))
    simp [hnil]

/-- C10: if every one of the first 3 passages the extractive lookup retrieves
has empty or whitespace-only text, `get_best_match_answer` returns the fixed
no-information string instead of passage blocks, and on the degraded
(backend-failure) path the user-visible answer is the apology prefix followed
by that fixed string rather than any passage text. -/
theorem whitespace_passages_fallback_noinfo
    (sr : String → Nat → List Int) (metadata : List Passage) (rest : GenOracle)
    (q : String) (k mc : Nat) (b : Option String) (e : String)
    (hne : search_laws sr metadata q k ≠ [])
    (hws : ∀ p ∈ (search_laws sr metadata q TOP_K).take 3,
      pyStrip (p.text.getD "") = "") :
    get_best_match_answer sr metadata q = NO_INFO ∧
    (rag_answer sr metadata (Except.error e :: rest) q k mc b).1.answer =
      GEN_FAIL_PREFIX ++ NO_INFO := by
  have hg : get_best_match_answer sr metadata q = NO_INFO :=
    bestMatchRender_noinfo _ hws
  refine ⟨hg, ?_⟩
  rw [ragAnswer_genError_eq sr metadata e rest q k mc b hne]
  simp [hg]

/-- Witness for C10: two retrieved passages, one with whitespace-only text and
one with no text field at all. -/
theorem whitespace_passages_fallback_noinfo_witness :
    get_best_match_answer srWs mdWs "q" = NO_INFO ∧
    (rag_answer srWs mdWs [Except.error "conn"] "q" 6 8000 none).1.answer =
      GEN_FAIL_PREFIX ++ NO_INFO :=
  whitespace_passages_fallback_noinfo srWs mdWs [] "q" 6 8000 none "conn"
    (by decide) (by decide)

/-- The extractive fallback as the specification words it: for each of the top
3 passages with non-empty text, render `"{article_title} ({law_title}):\n{text}"`
when an article title is present, else `"({law_title}):\n{text}"`, and join the
rendered blocks with a blank line.  Written from the spec sentence, for
comparison against `get_best_match_answer`. -/
def fallbackRenderSpec (ctx : List Passage) : String :=
  String.intercalate "\n\n" ((ctx.take 3).filterMap (fun p =>
    if p.text.getD "" = "" then none
    else some (match p.article_title with
      | some a => a ++ " (" ++ p.law_title.getD "" ++ "):\n" ++ p.text.getD ""
      | none => "(" ++ p.law_title.getD "" ++ "):\n" ++ p.text.getD "")))

/-- Fixture for the C7 counterexample: a passage with whitespace-padded text
and a present-but-empty article title. -/
def mdC7 : List Passage := [⟨some "L1", some "", some " t1 ", none⟩]

/-- Index over `mdC7`. -/
def srC7 : String → Nat → List Int := fun _ _ => [0]

/-- C7 counterexample: the code strips the passage text before rendering and
treats a present-but-empty article title as absent, so at this concrete input
the lookup's output differs from the claim's exact template, which would
render the raw text and prepend the empty article title. -/
theorem get_best_match_spec_mismatch :
    get_best_match_answer srC7 mdC7 "q" ≠
      fallbackRenderSpec (search_laws srC7 mdC7 "q" TOP_K) := by decide

/-- The extractive fallback as the amended claim words it: each of the top 3
passages whose text is non-empty after stripping surrounding whitespace is
rendered as `"{article_title} ({law_title}):\n{stripped text}"` when the
article title is present and non-empty, and as
`"({law_title}):\n{stripped text}"` otherwise, with an absent law title
replaced by the fixed placeholder; rendered blocks are joined with a blank
line. -/
def fallbackRenderAmended (ctx : List Passage) : String :=
  String.intercalate "\n\n" ((ctx.take 3).filterMap (fun p =>
    if pyStrip (p.text.getD "") = "" then none
    else some (match p.article_title with
      | some a =>
          if a = "" then
            "(" ++ p.law_title.getD UNNAMED_LAW ++ "):\n" ++ pyStrip (p.text.getD "")
          else
            a ++ " (" ++ p.law_title.getD UNNAMED_LAW ++ "):\n" ++ pyStrip (p.text.getD "")
      | none => "(" ++ p.law_title.getD UNNAMED_LAW ++ "):\n" ++ pyStrip (p.text.getD ""))))

/-- C7 (amended): whenever the lookup's retrieval is non-empty and some
passage among its top 3 has text that does not strip to empty, the extractive
lookup produces exactly the amended rendering: stripped-text blocks titled by
the article title when it is present and non-empty (else law title alone, with
a placeholder for an absent law title), blank-line separated, skipping
passages whose text strips to empty. -/
theorem get_best_match_amended_spec
    (sr : String → Nat → List Int) (metadata : List Passage) (q : String)
    (hne : search_laws sr metadata q TOP_K ≠ [])
    (hsome : ∃ p ∈ (search_laws sr metadata q TOP_K).take 3,
      pyStrip (p.text.getD "") ≠ "") :
    get_best_match_answer sr metadata q =
      fallbackRenderAmended (search_laws sr metadata q TOP_K) := by
  have hnonnil : ((search_laws sr metadata q TOP_K).take 3).filterMap
      bestMatchBlock ≠ [] := by
    intro hnil
    obtain ⟨p, hp, hptxt⟩ := hsome
    have hb := List.filterMap_eq_nil_iff.mp hnil p hp
    unfold bestMatchBlock at hb
    rw [if_neg hptxt] at hb
    exact Option.some_ne_none _ hb
  unfold get_best_match_answer bestMatchRender fallbackRenderAmended
  rw [if_neg hne, if_neg hnonnil]
  rfl

/-- Witness for C7's amended theorem: the lookup over the ten-passage fixture
reproduces the amended rendering of its top three passages. -/
theorem get_best_match_amended_spec_witness :
    get_best_match_answer srFix mdFix "q" =
      fallbackRenderAmended (search_laws srFix mdFix "q" TOP_K) :=
  get_best_match_amended_spec srFix mdFix "q" (by decide) (by decide)

theorem enumFrom_map_formatLine : ∀ (l : List Passage) (n : Nat),
    (l.enumFrom n).map (fun p => formatSourceLine (p.1 + 1) p.2) =
      List.zipWith formatSourceLine (List.range' (n + 1) l.length) l
  | [], _ => rfl
  | c :: t, n => by
    have hr : List.range' (n + 1) (t.length + 1) =
        (n + 1) :: List.range' (n + 2) t.length := by
      simp [List.range']
    simp only [List.enumFrom, List.map_cons, List.length_cons, hr,
      List.zipWith_cons_cons]
    exact congrArg _ (enumFrom_map_formatLine t (n + 1))

theorem format_sources_numbering (kept : List Passage) :
    (_format_sources kept).1 = String.intercalate "\n\n"
      (List.zipWith formatSourceLine (List.range' 1 kept.length) kept) := by
  show String.intercalate "\n\n"
      ((kept.enumFrom 0).map (fun p => formatSourceLine (p.1 + 1) p.2)) =
    String.intercalate "\n\n"
      (List.zipWith formatSourceLine (List.range' 1 kept.length) kept)
  rw [enumFrom_map_formatLine kept 0]

theorem ragAnswer_sources_eq
    (sr : String → Nat → List Int) (metadata : List Passage) (oracle : GenOracle)
    (q : String) (k mc : Nat) (b : Option String)
    (hne : search_laws sr metadata q k ≠ []) :
    (rag_answer sr metadata oracle q k mc b).1.sources =
      (search_laws sr metadata q k).take 3 := by
  unfold rag_answer
  simp only [if_neg hne]
  cases hg : _generate_with_ollama (callGen oracle).1 with
  | error e => simp [hg]
  | ok t =>
    simp only [hg]
    by_cases hc : pyStrip t = "" ∨ (pyStrip t).length < 20
    · simp [hc]
    · simp [hc]

/-- C3 (amended): the citation numbers in the prompt's reference block are
exactly `1..N` assigned to the kept passages in retrieved order, the kept
passages are a prefix of the retrieved list, and the returned `sources` are
always the first 3 retrieved passages; numbers and sources therefore
correspond entry-by-entry on their common prefix, but the prompt may cite more
(or fewer) passages than the 3 returned as `sources`, because the kept count is
set by the character budget rather than by the source cap. -/
theorem citation_numbering_amended
    (sr : String → Nat → List Int) (metadata : List Passage) (oracle : GenOracle)
    (q : String) (k mc : Nat) (b : Option String)
    (hne : search_laws sr metadata q k ≠ []) :
    (_format_sources (keptPassages (search_laws sr metadata q k) mc)).1 =
      String.intercalate "\n\n" (List.zipWith formatSourceLine
        (List.range' 1 (keptPassages (search_laws sr metadata q k) mc).length)
        (keptPassages (search_laws sr metadata q k) mc)) ∧
    keptPassages (search_laws sr metadata q k) mc <+: search_laws sr metadata q k ∧
    (rag_answer sr metadata oracle q k mc b).1.sources =
      (search_laws sr metadata q k).take 3 ∧
    (∀ j, j < min (keptPassages (search_laws sr metadata q k) mc).length 3 →
      (keptPassages (search_laws sr metadata q k) mc).get? j =
        ((rag_answer sr metadata oracle q k mc b).1.sources).get? j) := by
  have hpre : keptPassages (search_laws sr metadata q k) mc <+:
      search_laws sr metadata q k :=
    keptPassages_isPrefix (search_laws sr metadata q k) mc
  have hsrc := ragAnswer_sources_eq sr metadata oracle q k mc b hne
  refine ⟨format_sources_numbering _, hpre, hsrc, fun j hj => ?_⟩
  have hkept_take : keptPassages (search_laws sr metadata q k) mc =
      (search_laws sr metadata q k).take
        (keptPassages (search_laws sr metadata q k) mc).length :=
    List.prefix_iff_eq_take.mp hpre
  have hj1 : j < (keptPassages (search_laws sr metadata q k) mc).length :=
    lt_of_lt_of_le hj (min_le_left _ _)
  have hj3 : j < 3 := lt_of_lt_of_le hj (min_le_right _ _)
  rw [hsrc, List.get?_eq_getElem?, List.get?_eq_getElem?]
  conv_lhs => rw [hkept_take]
  rw [List.getElem?_take, List.getElem?_take, if_pos hj1, if_pos hj3]

/-- Witness for C3 at a concrete input: six passages retrieved, all six kept
and numbered, sources capped at three. -/
theorem citation_numbering_amended_witness :
    (_format_sources (keptPassages (search_laws srFix mdFix "q" 6) 8000)).1 =
      String.intercalate "\n\n" (List.zipWith formatSourceLine
        (List.range' 1 (keptPassages (search_laws srFix mdFix "q" 6) 8000).length)
        (keptPassages (search_laws srFix mdFix "q" 6) 8000)) ∧
    keptPassages (search_laws srFix mdFix "q" 6) 8000 <+: search_laws srFix mdFix "q" 6 ∧
    (rag_answer srFix mdFix [Except.error "conn"] "q" 6 8000 none).1.sources =
      (search_laws srFix mdFix "q" 6).take 3 ∧
    (∀ j, j < min (keptPassages (search_laws srFix mdFix "q" 6) 8000).length 3 →
      (keptPassages (search_laws srFix mdFix "q" 6) 8000).get? j =
        ((rag_answer srFix mdFix [Except.error "conn"] "q" 6 8000 none).1.sources).get? j) :=
  citation_numbering_amended srFix mdFix [Except.error "conn"] "q" 6 8000 none (by decide)

/-- C3 counterexample: at this concrete input the prompt's reference block
numbers six kept passages while `sources` holds only the first three retrieved
passages, so the numbered passage list and `sources` do not correspond 1:1. -/
theorem citation_numbers_vs_sources_mismatch :
    (keptPassages (search_laws srFix mdFix "q" 6) 8000).length = 6 ∧
    ((rag_answer srFix mdFix [Except.ok (some "aaaaaaaaaaaaaaaaaaaaaaaaa")]
        "q" 6 8000 none).1.sources).length = 3 ∧
    (_format_sources (keptPassages (search_laws srFix mdFix "q" 6) 8000)).2 ≠
      (rag_answer srFix mdFix [Except.ok (some "aaaaaaaaaaaaaaaaaaaaaaaaa")]
        "q" 6 8000 none).1.sources := by
  refine ⟨by decide, by decide, by decide⟩

/-- C5 (amended): when the embedding/search calls themselves succeed (both the
entry search and the fallback lookup's search), `rag_answer` absorbs every
generation-backend outcome — failure, empty, short or healthy completion —
into a structured `AnswerResult` and never returns an error; but an
embedding/retrieval exception after startup is *not* absorbed: the entry
`search_laws` call sits outside any `try`, so such a failure propagates to the
caller. -/
theorem rag_answer_exc_structured_when_retrieval_ok
    (sre : String → Nat → Except String (List Int)) (metadata : List Passage)
    (oracle : GenOracle) (q : String) (k mc : Nat) (b : Option String)
    (l1 l2 : List Int) (h1 : sre q k = .ok l1) (h2 : sre q TOP_K = .ok l2) :
    ∃ res : AnswerResult,
      (rag_answer_exc sre metadata oracle q k mc b).1 = .ok res := by
  have hs1 : search_laws_exc sre metadata q k = .ok (lookupPositions metadata l1) := by
    unfold search_laws_exc
    rw [h1]
    rfl
  have hs2 : get_best_match_answer_exc sre metadata q =
      .ok (bestMatchRender (lookupPositions metadata l2)) := by
    unfold get_best_match_answer_exc search_laws_exc
    rw [h2]
    rfl
  unfold rag_answer_exc
  rw [hs1]
  dsimp only
  by_cases hc : lookupPositions metadata l1 = []
  · rw [if_pos hc]
    exact ⟨_, rfl⟩
  · rw [if_neg hc]
    cases hg : _generate_with_ollama (callGen oracle).1 with
    | error e =>
      simp only [hg, hs2]
      exact ⟨_, rfl⟩
    | ok t =>
      simp only [hg]
      by_cases hsh : pyStrip t = "" ∨ (pyStrip t).length < 20
      · simp only [if_pos hsh, hs2]
        exact ⟨_, rfl⟩
      · simp only [if_neg hsh]
        exact ⟨_, rfl⟩

/-- Witness for C5's amended theorem: healthy retrieval and a failing backend
still produce a structured result. -/
theorem rag_answer_exc_structured_witness :
    ∃ res : AnswerResult,
      (rag_answer_exc sreOk mdFix [Except.error "conn"] "q" 6 8000 none).1 =
        Except.ok res :=
  rag_answer_exc_structured_when_retrieval_ok sreOk mdFix [Except.error "conn"]
    "q" 6 8000 none ((List.range 6).map Int.ofNat) ((List.range 5).map Int.ofNat)
    rfl rfl

/-- C5 counterexample: a per-query embedding failure at retrieval time is not
absorbed — `rag_answer` re-raises it, so the caller receives an error value
rather than a structured result. -/
theorem rag_answer_exc_propagates_embedding_error :
    (rag_answer_exc sreFail mdFix [] "q" 6 8000 none).1 =
      Except.error "EmbeddingError" := rfl
